import Mathlib

/-!
Shallow embedding of the core recognition and persistence pipeline of the
ar-gesture-ai repository (src/backend/facial_expression.py,
src/backend/gesture_recognition.py, src/backend/storage.py), together with
theorems settling the specification claims about it.

External collaborators (MediaPipe's landmark providers, OpenCV's colour
conversion, scikit-learn's scaler/classifier, pymongo's server calls, and
numpy's sqrt) are modelled as explicit parameters: fallible calls as
`Except String` values or functions, `np.sqrt` as an abstract `ℚ → ℚ`
function (the claims under study never depend on its value), and floats as
exact rationals (the code only ever compares them against decimal literals,
which `ℚ`'s scientific literals represent exactly).
-/

namespace ARGestureAI

/-- A MediaPipe landmark: normalized coordinates. Face-mesh landmarks also
carry `z`; the facial code only reads `x` and `y`. -/
structure Landmark where
  x : ℚ
  y : ℚ
  z : ℚ
deriving DecidableEq

namespace FacialExpressionRecognizer

/-- Embeds `FacialExpressionRecognizer.EXPRESSIONS` (facial_expression.py line 20). -/
def EXPRESSIONS : List String := ["Neutral", "Happy", "Sad", "Angry", "Unknown"]

/-- Landmark index constants set in `__init__` (facial_expression.py lines 33-41). -/
def MOUTH_LEFT : Nat := 61

def MOUTH_RIGHT : Nat := 291

def MOUTH_TOP : Nat := 13

def MOUTH_BOTTOM : Nat := 14

def LEFT_EYE_LEFT : Nat := 33

def LEFT_EYE_RIGHT : Nat := 133

/-- Embeds `extract_mouth_distance` (facial_expression.py lines 43-69). Indexing
`landmarks[i]` out of range raises `IndexError`, caught by the function's
`except (IndexError, AttributeError)` handler which returns `0.0`; this is
modelled by `List.get?` returning `none`. `np.sqrt` is the abstract
parameter `sqrt`. -/
def extract_mouth_distance (sqrt : ℚ → ℚ) (landmarks : List Landmark) : ℚ :=
  match landmarks.get? MOUTH_LEFT, landmarks.get? MOUTH_RIGHT,
        landmarks.get? MOUTH_TOP, landmarks.get? MOUTH_BOTTOM with
  | some mouth_left, some mouth_right, some mouth_top, some mouth_bottom =>
    let left_right_distance :=
      sqrt ((mouth_left.x - mouth_right.x) ^ 2 + (mouth_left.y - mouth_right.y) ^ 2)
    let top_bottom_distance := sqrt ((mouth_top.y - mouth_bottom.y) ^ 2)
    if left_right_distance > 0 then
      top_bottom_distance / (left_right_distance + 1e-5)
    else
      0.0
  | _, _, _, _ => 0.0

/-- Embeds `extract_eye_distance` (facial_expression.py lines 71-85); only the two
left-eye corner indices are consulted. A failed index lookup is caught and
yields `0.0`. -/
def extract_eye_distance (sqrt : ℚ → ℚ) (landmarks : List Landmark) : ℚ :=
  match landmarks.get? LEFT_EYE_LEFT, landmarks.get? LEFT_EYE_RIGHT with
  | some left_eye_left, some left_eye_right =>
    sqrt ((left_eye_left.x - left_eye_right.x) ^ 2 + (left_eye_left.y - left_eye_right.y) ^ 2)
  | _, _ => 0.0

/-- The heuristic decision chain inlined in `recognize`
(facial_expression.py lines 114-125), as a function of the two extracted
ratios. -/
def classifyRatios (mouth_distance eye_distance : ℚ) : String × ℚ :=
  if mouth_distance > 0.02 ∧ eye_distance > 0.01 then ("Happy", 0.85)
  else if mouth_distance < 0.01 ∧ eye_distance < 0.008 then ("Sad", 0.80)
  else if mouth_distance > 0.015 ∧ eye_distance < 0.009 then ("Angry", 0.75)
  else ("Neutral", 0.90)

/-- Embeds `recognize` (facial_expression.py lines 87-130). `cv2_available` models
the `cv2 is None` guard; `process` models the fallible external calls
(`cv2.cvtColor` and `face_mesh.process`) whose exceptions the outer
`except Exception` handler turns into `("Error", 0.0)`; its `ok` value is
`results.multi_face_landmarks` as a list of faces (empty when no face is
detected, so the `and len(...) > 0` test fails and `("Unknown", 0.0)` is
returned). -/
def recognize (sqrt : ℚ → ℚ) (cv2_available : Bool)
    (process : Except String (List (List Landmark))) : String × ℚ :=
  if cv2_available = false then ("Unknown", 0.0)
  else
    match process with
    | .error _ => ("Error", 0.0)
    | .ok multi_face_landmarks =>
      match multi_face_landmarks with
      | [] => ("Unknown", 0.0)
      | landmarks :: _ =>
        classifyRatios (extract_mouth_distance sqrt landmarks)
          (extract_eye_distance sqrt landmarks)

end FacialExpressionRecognizer

/-- Modelled from the spec: the expression-heuristic decision table of §4.2
("`m > 0.15` → Happy 0.85; `0.08 < m <= 0.15` and `e < 0.25` → Angry 0.80;
`m < 0.05` and `e < 0.20` → Sad 0.75; otherwise Neutral 0.90"), stated here
only to be compared against the table the source actually implements. -/
def specExpressionTable (m e : ℚ) : String × ℚ :=
  if m > 0.15 then ("Happy", 0.85)
  else if 0.08 < m ∧ m ≤ 0.15 ∧ e < 0.25 then ("Angry", 0.80)
  else if m < 0.05 ∧ e < 0.20 then ("Sad", 0.75)
  else ("Neutral", 0.90)

namespace GestureRecognizer

/-- Embeds `GestureRecognizer.GESTURES` (gesture_recognition.py line 25). -/
def GESTURES : List String := ["Hello", "Help", "Yes", "No", "Stop", "Neutral"]

/-- A scikit-learn classifier object as far as this module observes it: the
fallback path constructs `RandomForestClassifier(n_estimators=100,
random_state=42)` (gesture_recognition.py line 58). -/
inductive Classifier where
  | randomForest (n_estimators : Nat) (random_state : Nat)
deriving DecidableEq

/-- A scikit-learn `StandardScaler`; the fallback path constructs a fresh
(unfit) one (gesture_recognition.py line 59). -/
structure StandardScaler where
  fitted : Bool
deriving DecidableEq

/-- The pickled `data` dictionary: `data.get('classifier')` and
`data.get('scaler')` (gesture_recognition.py lines 52-53), each possibly
absent. -/
structure SavedBundle where
  classifier : Option Classifier
  scaler : Option StandardScaler
deriving DecidableEq

/-- Embeds `load_model` (gesture_recognition.py lines 46-62). `artifact` models
the filesystem at `model_path`: `none` when `os.path.exists` is false,
`some (.error e)` when the file exists but `pickle.load` raises `e`, and
`some (.ok data)` when deserialization succeeds. The function's `except`
clause logs and then re-raises (`raise`, line 62), modelled by returning
`.error e`. -/
def load_model (artifact : Option (Except String SavedBundle)) :
    Except String (Option Classifier × Option StandardScaler) :=
  match artifact with
  | some (.ok data) => .ok (data.classifier, data.scaler)
  | some (.error e) => .error e
  | none => .ok (some (.randomForest 100 42), some { fitted := false })

/-- Embeds `extract_landmarks` (gesture_recognition.py lines 64-88): `none` input
models `hand_landmarks is None`; otherwise the landmark coordinates are
flattened in order (`features.extend([landmark.x, landmark.y, landmark.z])`)
and the result is rejected (`None`) unless its length is exactly 63. -/
def extract_landmarks (hand_landmarks : Option (List Landmark)) : Option (List ℚ) :=
  match hand_landmarks with
  | none => none
  | some hl =>
    let features := (hl.map fun landmark => [landmark.x, landmark.y, landmark.z]).flatten
    if features.length ≠ 63 then none else some features

/-- Computes `np.max` over a nonempty list (head and tail given separately, since
`np.max` raises on an empty array and that raise is handled at the call
site). -/
def npMax (p : ℚ) (ps : List ℚ) : ℚ := ps.foldl max p

/-- Helper for `npArgmax`: scan with current best value, its index, and the
index of the next element. Matches `np.argmax`, which returns the index of
the first occurrence of the maximum. -/
def npArgmaxGo : List ℚ → ℚ → Nat → Nat → Nat
  | [], _, bestIdx, _ => bestIdx
  | q :: qs, best, bestIdx, i =>
    if q > best then npArgmaxGo qs q i (i + 1) else npArgmaxGo qs best bestIdx (i + 1)

/-- Computes `np.argmax` over a nonempty list. -/
def npArgmax (p : ℚ) (ps : List ℚ) : Nat := npArgmaxGo ps p 0 1

/-- The statistical-classification stage of `recognize`
(gesture_recognition.py lines 116-122): scale the features, get
per-class probabilities, return `(GESTURES[argmax], max)`. `transform` and
`predict_proba` are the scikit-learn calls, each of which may raise (for
example `transform` raises `NotFittedError` on an unfit scaler); `np.max`
on an empty probability row and `GESTURES[gesture_idx]` with an
out-of-range index also raise. All of those raises are caught by
`recognize`'s `except Exception` handler and become `("Error", 0.0)`. The
source's `confidence` and `gesture_idx` temporaries are inlined. -/
def classifyFeatures (transform : List ℚ → Except String (List ℚ))
    (predict_proba : List ℚ → Except String (List ℚ))
    (features : List ℚ) : String × ℚ :=
  match transform features with
  | .error _ => ("Error", 0.0)
  | .ok features_scaled =>
    match predict_proba features_scaled with
    | .error _ => ("Error", 0.0)
    | .ok [] => ("Error", 0.0)
    | .ok (p :: ps) =>
      match GESTURES.get? (npArgmax p ps) with
      | none => ("Error", 0.0)
      | some g => (g, npMax p ps)

/-- Embeds `recognize` (gesture_recognition.py lines 90-127). `classifier` and
`scaler` are the fields checked by the `is None` guard (line 100);
`process` models the fallible external calls (`cv2.cvtColor`,
`image.shape` unpacking, `hands.process`) with its `ok` value being
`results.multi_hand_landmarks` as a list of hands. When a hand is present
but `extract_landmarks` returns `None`, control falls through to
`return "No Hand", 0.0` (line 124). -/
def recognize (classifier : Option Classifier) (scaler : Option StandardScaler)
    (process : Except String (List (List Landmark)))
    (transform : List ℚ → Except String (List ℚ))
    (predict_proba : List ℚ → Except String (List ℚ)) : String × ℚ :=
  match classifier, scaler with
  | some _, some _ =>
    (match process with
     | .error _ => ("Error", 0.0)
     | .ok multi_hand_landmarks =>
       match multi_hand_landmarks with
       | [] => ("No Hand", 0.0)
       | landmarks :: _ =>
         match extract_landmarks (some landmarks) with
         | none => ("No Hand", 0.0)
         | some features => classifyFeatures transform predict_proba features)
  | _, _ => ("Unknown", 0.0)

end GestureRecognizer

/-- The state a recognition session's `close` acts on: whether the
underlying MediaPipe solution object is still open. -/
structure Session where
  opened : Bool
deriving DecidableEq

namespace GestureRecognizer

/-- Embeds `close` (gesture_recognition.py lines 160-165): `self.hands.close()`
wrapped in `try/except` that logs and does not propagate. `underlying`
models the MediaPipe `close` call, which may raise (in particular on an
already-closed session); a raise is caught and the session state is left
as it was. The `.ok` result type records that the wrapper itself never
raises. -/
def close (underlying : Session → Except String Session) (s : Session) :
    Except String Session :=
  match underlying s with
  | .ok s2 => .ok s2
  | .error _ => .ok s

end GestureRecognizer

namespace FacialExpressionRecognizer

/-- Embeds `close` (facial_expression.py lines 152-157): identical catch-and-log
wrapper around `self.face_mesh.close()`. -/
def close (underlying : Session → Except String Session) (s : Session) :
    Except String Session :=
  match underlying s with
  | .ok s2 => .ok s2
  | .error _ => .ok s

end FacialExpressionRecognizer

/-- An event document (storage.py): gesture, expression, confidence,
timestamp. The timestamp is `none` when the caller supplied no
`'timestamp'` key; ISO-8601 strings compare chronologically, so timestamps
are modelled as naturals. -/
structure Event where
  gesture : String
  expression : String
  confidence : ℚ
  timestamp : Option Nat
deriving DecidableEq

namespace MongoDBStorage

/-- The sort key used by `.sort("timestamp", -1)`. -/
def tsKey (e : Event) : Nat := e.timestamp.getD 0

/-- Embeds the `MongoDBStorage` state: `events_collection` is `none` in offline mode
(connection probe failed in `__init__`, storage.py lines 29-46) and
`some events` when connected; `next_id` models the server's ObjectId
generator for `insert_one`. -/
structure State where
  events_collection : Option (List Event)
  next_id : Nat
deriving DecidableEq

/-- Embeds `insert_event` (storage.py lines 48-74). Offline (`events_collection
is None`) returns `None` (line 60). Otherwise the timestamp is defaulted
to the current time and `insert_one` is called; `op_failure` models that
server call raising (`OperationFailure` or other), which the handlers
catch, returning `None`. On success the inserted ObjectId is returned as a
string. -/
def insert_event (st : State) (event : Event) (now : Nat) (op_failure : Bool) :
    Option String × State :=
  match st.events_collection with
  | none => (none, st)
  | some evs =>
    let ev := { event with timestamp := some (event.timestamp.getD now) }
    if op_failure then (none, st)
    else (some (toString st.next_id),
          { st with events_collection := some (evs ++ [ev]), next_id := st.next_id + 1 })

/-- Descending insertion by `tsKey`, used to model the server-side
`.sort("timestamp", -1)`. -/
def insertDesc (e : Event) : List Event → List Event
  | [] => [e]
  | b :: l => if tsKey b ≤ tsKey e then e :: b :: l else b :: insertDesc e l

/-- Sort a collection by timestamp, newest first. -/
def sortDesc (l : List Event) : List Event := l.foldr insertDesc []

/-- Embeds `get_events` (storage.py lines 76-110). Offline returns `[]`. The
parameters are clamped (`limit = max(1, min(limit, 1000))`,
`offset = max(0, offset)`, lines 92-93) and the server evaluates
sort-then-skip-then-limit (pymongo applies `.sort` before `.skip`/`.limit`
regardless of the chaining order). A raising server call (`op_failure`) is
caught, returning `[]`. -/
def get_events (st : State) (limit offset : Int) (op_failure : Bool) : List Event :=
  match st.events_collection with
  | none => []
  | some evs =>
    let limit2 := max 1 (min limit 1000)
    let offset2 := max 0 offset
    if op_failure then []
    else ((sortDesc evs).drop offset2.toNat).take limit2.toNat

/-- Embeds `clear_events` (storage.py lines 147-166). Offline returns `False`;
a raising `delete_many` is caught, returning `False`; otherwise all events
are deleted and `True` is returned. -/
def clear_events (st : State) (op_failure : Bool) : Bool × State :=
  match st.events_collection with
  | none => (false, st)
  | some _ =>
    if op_failure then (false, st)
    else (true, { st with events_collection := some [] })

end MongoDBStorage

/-- The closed label vocabulary of the gesture modality: the trained-class
labels plus the sentinels produced by `recognize`. -/
def gestureVocab : List String :=
  GestureRecognizer.GESTURES ++ ["Unknown", "No Hand", "Error"]

/-- The closed label vocabulary of the expression modality: `EXPRESSIONS`
plus the `"Error"` sentinel produced by the exception handler. -/
def expressionVocab : List String :=
  FacialExpressionRecognizer.EXPRESSIONS ++ ["Error"]

/-! ## Theorems -/

open FacialExpressionRecognizer GestureRecognizer in
/-- C1, counterexample. At mouth ratio `m = 0.03` and eye ratio `e = 0.10`
— the spec's own boundary scenario — the spec's decision table yields
`("Sad", 0.75)` but the table the code implements (facial_expression.py
lines 116-125) yields `("Happy", 0.85)`, so the claim's table is not the
code's. -/
theorem C1_counterexample :
    specExpressionTable 0.03 0.10 = ("Sad", 0.75)
  ∧ classifyRatios 0.03 0.10 = ("Happy", 0.85)
  ∧ (("Happy", (0.85 : ℚ)) : String × ℚ) ≠ (("Sad", (0.75 : ℚ)) : String × ℚ) := by
  refine ⟨?_, ?_, ?_⟩
  · rw [specExpressionTable]; norm_num
  · rw [classifyRatios]; norm_num
  · intro h
    have : "Happy" = "Sad" := congrArg Prod.fst h
    simp at this

open FacialExpressionRecognizer in
/-- C1, amended: the expression heuristic's actual decision table. For
mouth ratio `m` and eye ratio `e`: `m > 0.02` and `e > 0.01` gives
`("Happy", 0.85)`; `m < 0.01` and `e < 0.008` gives `("Sad", 0.80)`;
`m > 0.015` and `e < 0.009` gives `("Angry", 0.75)`; otherwise
`("Neutral", 0.90)`; and with no face detected, `recognize` returns
`("Unknown", 0.0)`. (The three guarded branches are mutually exclusive, so
stating them independently of the if-chain order is sound.) -/
theorem C1_expression_table (m e : ℚ) :
    (m > 0.02 ∧ e > 0.01 → classifyRatios m e = ("Happy", 0.85))
  ∧ (m < 0.01 ∧ e < 0.008 → classifyRatios m e = ("Sad", 0.80))
  ∧ (m > 0.015 ∧ e < 0.009 → classifyRatios m e = ("Angry", 0.75))
  ∧ (¬(m > 0.02 ∧ e > 0.01) → ¬(m < 0.01 ∧ e < 0.008) → ¬(m > 0.015 ∧ e < 0.009) →
       classifyRatios m e = ("Neutral", 0.90))
  ∧ (∀ sq : ℚ → ℚ, recognize sq true (.ok []) = ("Unknown", 0.0)) := by
  refine ⟨?_, ?_, ?_, ?_, fun _ => rfl⟩
  · intro h
    rw [classifyRatios, if_pos h]
  · intro h
    have h1 : ¬(m > 0.02 ∧ e > 0.01) := by
      rintro ⟨hm, -⟩
      have := h.1
      linarith
    rw [classifyRatios, if_neg h1, if_pos h]
  · intro h
    have h1 : ¬(m > 0.02 ∧ e > 0.01) := by
      rintro ⟨-, he⟩
      have := h.2
      linarith
    have h2 : ¬(m < 0.01 ∧ e < 0.008) := by
      rintro ⟨hm, -⟩
      have := h.1
      linarith
    rw [classifyRatios, if_neg h1, if_neg h2, if_pos h]
  · intro h1 h2 h3
    rw [classifyRatios, if_neg h1, if_neg h2, if_neg h3]

open FacialExpressionRecognizer in
/-- C1, witness: the amended table applied at `m = 0.03`, `e = 0.10`. -/
theorem C1_expression_table_witness : classifyRatios 0.03 0.10 = ("Happy", 0.85) :=
  (C1_expression_table 0.03 0.10).1 (by norm_num)

open MongoDBStorage in
/-- C2, counterexample. With the store offline, `insert_event` returns
`None` (storage.py line 60), not a non-null locally-synthesized
placeholder identifier. -/
theorem C2_counterexample :
    (insert_event ⟨none, 0⟩ ⟨"Hello", "Happy", 0.9, none⟩ 5 false).1 = none := rfl

open MongoDBStorage in
/-- C2, amended: in the offline state, `insert_event` returns `None`
without persisting anything (the state is unchanged), `get_events` returns
the empty list, and `clear_events` returns `false` — and, all three being
total functions whose exception paths are caught internally, none raises. -/
theorem C2_offline_degradation (st : State) (h : st.events_collection = none)
    (event : Event) (now : Nat) (bf1 bf2 bf3 : Bool) (limit offset : Int) :
    insert_event st event now bf1 = (none, st)
  ∧ get_events st limit offset bf2 = []
  ∧ clear_events st bf3 = (false, st) := by
  refine ⟨?_, ?_, ?_⟩ <;> simp [insert_event, get_events, clear_events, h]

open MongoDBStorage in
/-- C2, witness: the amended offline behaviour at a concrete offline
store. -/
theorem C2_offline_degradation_witness :
    insert_event ⟨none, 0⟩ ⟨"Hello", "Happy", 0.9, none⟩ 5 false = (none, ⟨none, 0⟩)
  ∧ get_events ⟨none, 0⟩ 10 0 false = []
  ∧ clear_events ⟨none, 0⟩ false = (false, ⟨none, 0⟩) :=
  C2_offline_degradation ⟨none, 0⟩ rfl ⟨"Hello", "Happy", 0.9, none⟩ 5 false false false 10 0

open GestureRecognizer in
/-- C3, counterexample. When an artifact exists at the path but
deserialization fails, `load_model` does not fall back: its handler logs
and re-raises (gesture_recognition.py line 62), so the load is an error,
contradicting the claim that it "does not raise an exception to the
caller". -/
theorem C3_counterexample :
    (load_model (some (.error ("bad pickle bytes")))).isOk = false := rfl

open GestureRecognizer in
/-- C3, amended: when deserialization of an existing artifact fails,
`load_model` re-raises the deserialization error; the untrained default
model (RandomForest with `n_estimators=100`, `random_state=42`, paired
with an unfit scaler) is constructed only when no artifact exists at the
path; a successfully deserialized bundle is returned as-is. -/
theorem C3_load_model (e : String) (data : SavedBundle) :
    load_model (some (.error e)) = .error e
  ∧ load_model none = .ok (some (.randomForest 100 42), some { fitted := false })
  ∧ load_model (some (.ok data)) = .ok (data.classifier, data.scaler) :=
  ⟨rfl, rfl, rfl⟩

/-- The gesture "Unknown" sentinel is in the gesture vocabulary. -/
theorem mem_gestureVocab_unknown : ("Unknown" : String) ∈ gestureVocab := by decide

/-- The "No Hand" sentinel is in the gesture vocabulary. -/
theorem mem_gestureVocab_noHand : ("No Hand" : String) ∈ gestureVocab := by decide

/-- The "Error" sentinel is in the gesture vocabulary. -/
theorem mem_gestureVocab_error : ("Error" : String) ∈ gestureVocab := by decide

/-- The expression "Unknown" sentinel is in the expression vocabulary. -/
theorem mem_expressionVocab_unknown : ("Unknown" : String) ∈ expressionVocab := by decide

/-- The expression "Error" sentinel is in the expression vocabulary. -/
theorem mem_expressionVocab_error : ("Error" : String) ∈ expressionVocab := by decide

/-- Every sentinel confidence `0.0` is nonnegative. -/
theorem conf_zero_nonneg : (0 : ℚ) ≤ 0.0 := by norm_num

/-- Every sentinel confidence `0.0` is at most one. -/
theorem conf_zero_le_one : (0.0 : ℚ) ≤ 1 := by norm_num

/-- The starting value bounds `npMax` from below. -/
theorem le_npMax : ∀ (ps : List ℚ) (p : ℚ), p ≤ GestureRecognizer.npMax p ps := by
  intro ps
  induction ps with
  | nil => intro p; exact le_refl p
  | cons q qs ih => intro p; exact le_trans (le_max_left p q) (ih (max p q))

/-- An upper bound on the start and on all elements bounds `npMax`. -/
theorem npMax_le (c : ℚ) :
    ∀ (ps : List ℚ) (p : ℚ), p ≤ c → (∀ q ∈ ps, q ≤ c) → GestureRecognizer.npMax p ps ≤ c := by
  intro ps
  induction ps with
  | nil => intro p hp _; exact hp
  | cons q qs ih =>
    intro p hp hqs
    exact ih (max p q) (max_le hp (hqs q (by simp))) fun r hr => hqs r (by simp [hr])

open GestureRecognizer in
/-- The statistical stage returns a label in the gesture vocabulary and,
when every probability reported by the model is in `[0,1]`, a confidence
in `[0,1]` — whatever the scaler and model do, including raising. -/
theorem classifyFeatures_sound (transform predict_proba : List ℚ → Except String (List ℚ))
    (features : List ℚ)
    (hp : ∀ f probs, predict_proba f = .ok probs → ∀ p ∈ probs, 0 ≤ p ∧ p ≤ 1) :
    (classifyFeatures transform predict_proba features).1 ∈ gestureVocab
  ∧ 0 ≤ (classifyFeatures transform predict_proba features).2
  ∧ (classifyFeatures transform predict_proba features).2 ≤ 1 := by
  unfold classifyFeatures
  split
  · exact ⟨mem_gestureVocab_error, conf_zero_nonneg, conf_zero_le_one⟩
  · split
    · exact ⟨mem_gestureVocab_error, conf_zero_nonneg, conf_zero_le_one⟩
    · exact ⟨mem_gestureVocab_error, conf_zero_nonneg, conf_zero_le_one⟩
    · rename_i p ps hpp
      have hbounds := hp _ (p :: ps) hpp
      have hmax1 : npMax p ps ≤ 1 :=
        npMax_le 1 ps p (hbounds p (by simp)).2 fun q hq => (hbounds q (by simp [hq])).2
      have hmax0 : 0 ≤ npMax p ps := le_trans (hbounds p (by simp)).1 (le_npMax ps p)
      split
      · exact ⟨mem_gestureVocab_error, conf_zero_nonneg, conf_zero_le_one⟩
      · rename_i g hg
        exact ⟨List.mem_append_left _ (List.get?_mem hg), hmax0, hmax1⟩

open FacialExpressionRecognizer in
/-- Every outcome of the expression heuristic chain is in the expression
vocabulary with confidence in `[0,1]`. -/
theorem classifyRatios_sound (m e : ℚ) :
    (classifyRatios m e).1 ∈ expressionVocab
  ∧ 0 ≤ (classifyRatios m e).2 ∧ (classifyRatios m e).2 ≤ 1 := by
  rw [classifyRatios]
  split_ifs <;> exact ⟨by decide, by norm_num, by norm_num⟩

open FacialExpressionRecognizer GestureRecognizer in
/-- C4: for every input — landmark-provider outcome, feature contents,
scaler and model behaviour (including raising calls) for the gesture
modality; cv2 availability, face-mesh outcome and landmark geometry for
the expression modality — `recognize` of each modality returns, without
raising, a label belonging to that modality's closed vocabulary (trained
labels plus the "no target" and "Error" sentinels) and, provided the
model's reported probabilities lie in `[0,1]` (scikit-learn's
`predict_proba` contract), a confidence in `[0,1]`. -/
theorem C4_closed_vocabulary
    (classifier : Option Classifier) (scaler : Option StandardScaler)
    (process : Except String (List (List Landmark)))
    (transform predict_proba : List ℚ → Except String (List ℚ))
    (hp : ∀ f probs, predict_proba f = .ok probs → ∀ p ∈ probs, 0 ≤ p ∧ p ≤ 1)
    (sq : ℚ → ℚ) (cv2_available : Bool)
    (fproc : Except String (List (List Landmark))) :
    ((GestureRecognizer.recognize classifier scaler process transform predict_proba).1
        ∈ gestureVocab
      ∧ 0 ≤ (GestureRecognizer.recognize classifier scaler process transform predict_proba).2
      ∧ (GestureRecognizer.recognize classifier scaler process transform predict_proba).2 ≤ 1)
  ∧ ((FacialExpressionRecognizer.recognize sq cv2_available fproc).1 ∈ expressionVocab
      ∧ 0 ≤ (FacialExpressionRecognizer.recognize sq cv2_available fproc).2
      ∧ (FacialExpressionRecognizer.recognize sq cv2_available fproc).2 ≤ 1) := by
  constructor
  · cases classifier with
    | none => exact ⟨mem_gestureVocab_unknown, conf_zero_nonneg, conf_zero_le_one⟩
    | some c =>
      cases scaler with
      | none => exact ⟨mem_gestureVocab_unknown, conf_zero_nonneg, conf_zero_le_one⟩
      | some s =>
        cases process with
        | error err => exact ⟨mem_gestureVocab_error, conf_zero_nonneg, conf_zero_le_one⟩
        | ok hands =>
          cases hands with
          | nil => exact ⟨mem_gestureVocab_noHand, conf_zero_nonneg, conf_zero_le_one⟩
          | cons landmarks rest =>
            have hred : GestureRecognizer.recognize (some c) (some s)
                (.ok (landmarks :: rest)) transform predict_proba
                = match extract_landmarks (some landmarks) with
                  | none => ("No Hand", 0.0)
                  | some features => classifyFeatures transform predict_proba features := rfl
            rw [hred]
            split
            · exact ⟨mem_gestureVocab_noHand, conf_zero_nonneg, conf_zero_le_one⟩
            · exact classifyFeatures_sound transform predict_proba _ hp
  · cases cv2_available with
    | false => exact ⟨mem_expressionVocab_unknown, conf_zero_nonneg, conf_zero_le_one⟩
    | true =>
      cases fproc with
      | error err => exact ⟨mem_expressionVocab_error, conf_zero_nonneg, conf_zero_le_one⟩
      | ok faces =>
        cases faces with
        | nil => exact ⟨mem_expressionVocab_unknown, conf_zero_nonneg, conf_zero_le_one⟩
        | cons landmarks rest =>
          exact classifyRatios_sound (extract_mouth_distance sq landmarks)
            (extract_eye_distance sq landmarks)

/-- Flattening three coordinates per landmark triples the length. -/
theorem flatten_coords_length (hl : List Landmark) :
    ((hl.map fun l => [l.x, l.y, l.z]).flatten).length = 3 * hl.length := by
  induction hl with
  | nil => simp
  | cons a l ih => simp [ih]; ring

open GestureRecognizer in
/-- C5: for a landmark set of 21 hand landmarks (each contributing x, y,
z), `extract_landmarks` returns a feature vector of exactly 63 entries;
a missing landmark set (`None`) and a landmark set whose flattened
coordinates have length other than 63 both yield `None`; the function is
total, so it never raises. -/
theorem C5_extract_arity (hl : List Landmark) :
    (hl.length = 21 →
       ∃ fs, extract_landmarks (some hl) = some fs ∧ fs.length = 63)
  ∧ extract_landmarks none = none
  ∧ (((hl.map fun l => [l.x, l.y, l.z]).flatten).length ≠ 63 →
       extract_landmarks (some hl) = none) := by
  have hif : extract_landmarks (some hl)
      = if ((hl.map fun l => [l.x, l.y, l.z]).flatten).length ≠ 63 then none
        else some ((hl.map fun l => [l.x, l.y, l.z]).flatten) := rfl
  refine ⟨?_, rfl, ?_⟩
  · intro h21
    have hlen : ((hl.map fun l => [l.x, l.y, l.z]).flatten).length = 63 := by
      rw [flatten_coords_length, h21]
    exact ⟨(hl.map fun l => [l.x, l.y, l.z]).flatten,
      by rw [hif, if_neg (not_not_intro hlen)], hlen⟩
  · intro hne
    rw [hif, if_pos hne]

open GestureRecognizer in
/-- C4, witness: the invariant at a concrete session whose scaler raises
(unfit) and whose model never produces probabilities, and at a concrete
face-less frame. -/
theorem C4_closed_vocabulary_witness :
    ((GestureRecognizer.recognize (some (.randomForest 100 42)) (some ⟨false⟩)
        (.ok [[⟨0, 0, 0⟩]]) (fun _ => .error ("scaler not fitted"))
        (fun _ => .error ("model not fitted"))).1 ∈ gestureVocab
      ∧ 0 ≤ (GestureRecognizer.recognize (some (.randomForest 100 42)) (some ⟨false⟩)
          (.ok [[⟨0, 0, 0⟩]]) (fun _ => .error ("scaler not fitted"))
          (fun _ => .error ("model not fitted"))).2
      ∧ (GestureRecognizer.recognize (some (.randomForest 100 42)) (some ⟨false⟩)
          (.ok [[⟨0, 0, 0⟩]]) (fun _ => .error ("scaler not fitted"))
          (fun _ => .error ("model not fitted"))).2 ≤ 1)
  ∧ ((FacialExpressionRecognizer.recognize (fun q => q) true (.ok [])).1 ∈ expressionVocab
      ∧ 0 ≤ (FacialExpressionRecognizer.recognize (fun q => q) true (.ok [])).2
      ∧ (FacialExpressionRecognizer.recognize (fun q => q) true (.ok [])).2 ≤ 1) :=
  C4_closed_vocabulary (some (.randomForest 100 42)) (some ⟨false⟩) (.ok [[⟨0, 0, 0⟩]])
    (fun _ => .error ("scaler not fitted")) (fun _ => .error ("model not fitted"))
    (fun f probs h => by simp at h) (fun q => q) true (.ok [])

open GestureRecognizer in
/-- C5, witness: a well-formed 21-landmark hand yields a 63-entry feature
vector. -/
theorem C5_extract_arity_witness :
    ∃ fs, extract_landmarks (some (List.replicate 21 ⟨0.5, 0.5, 0.0⟩)) = some fs
      ∧ fs.length = 63 :=
  (C5_extract_arity (List.replicate 21 ⟨0.5, 0.5, 0.0⟩)).1 (by simp)

open GestureRecognizer in
/-- C6, counterexample. With a hand detected whose landmark set flattens
to the wrong arity, `extract_landmarks` returns `None` and the gesture
`recognize` falls through to `("No Hand", 0.0)` (gesture_recognition.py
line 124), not to `("Unknown", 0.0)` as the claim states. -/
theorem C6_counterexample :
    GestureRecognizer.recognize (some (.randomForest 100 42)) (some ⟨false⟩)
      (.ok [[⟨0, 0, 0⟩]]) (fun f => .ok f) (fun _ => .ok [1]) = ("No Hand", 0.0)
  ∧ ("No Hand" : String) ≠ "Unknown" := by
  exact ⟨rfl, by decide⟩

open GestureRecognizer in
/-- C6, amended: per-frame pipeline order of the Recognition Session. When
the Landmark Provider finds no target, `recognize` short-circuits to the
sentinel — `("No Hand", 0.0)` for gestures, `("Unknown", 0.0)` for
expressions — without invoking the scaler or classifier (the result is
stated for arbitrary `transform`/`predict_proba`); when the Feature
Extractor returns `None`, the gesture `recognize` returns
`("No Hand", 0.0)` (not `("Unknown", 0.0)`); otherwise it returns the
classifier stage's result. -/
theorem C6_pipeline_order (c : Classifier) (s : StandardScaler) (sq : ℚ → ℚ)
    (t p : List ℚ → Except String (List ℚ))
    (landmarks : List Landmark) (rest : List (List Landmark)) (fs : List ℚ) :
    GestureRecognizer.recognize (some c) (some s) (.ok []) t p = ("No Hand", 0.0)
  ∧ FacialExpressionRecognizer.recognize sq true (.ok []) = ("Unknown", 0.0)
  ∧ (extract_landmarks (some landmarks) = none →
       GestureRecognizer.recognize (some c) (some s) (.ok (landmarks :: rest)) t p
         = ("No Hand", 0.0))
  ∧ (extract_landmarks (some landmarks) = some fs →
       GestureRecognizer.recognize (some c) (some s) (.ok (landmarks :: rest)) t p
         = classifyFeatures t p fs) := by
  refine ⟨rfl, rfl, ?_, ?_⟩ <;> intro h <;> simp [GestureRecognizer.recognize, h]

open GestureRecognizer in
/-- C6, witness: a well-formed hand flows through to the classifier
stage. -/
theorem C6_pipeline_order_witness :
    GestureRecognizer.recognize (some (.randomForest 100 42)) (some ⟨false⟩)
      (.ok [List.replicate 21 ⟨0, 0, 0⟩]) (fun f => .ok f) (fun _ => .ok [1])
      = classifyFeatures (fun f => .ok f) (fun _ => .ok [1]) (List.replicate 63 0) :=
  (C6_pipeline_order (.randomForest 100 42) ⟨false⟩ (fun q => q) (fun f => .ok f)
    (fun _ => .ok [1]) (List.replicate 21 ⟨0, 0, 0⟩) [] (List.replicate 63 0)).2.2.2
    (by decide)

open MongoDBStorage in
/-- Inserting into a base of `[e]` keeps a strictly-newest `e` at the
front: folding `insertDesc` over `l` starting from `[e]` equals `e`
consed onto the full sort of `l`, when every timestamp in `l` is strictly
older than that of `e`. -/
theorem foldr_insertDesc_newest (e : Event) :
    ∀ (l : List Event), (∀ x ∈ l, tsKey x < tsKey e) →
      l.foldr insertDesc [e] = e :: sortDesc l := by
  intro l
  induction l with
  | nil => intro _; rfl
  | cons a l ih =>
    intro h
    have ha : ¬ tsKey e ≤ tsKey a := not_le.mpr (h a (by simp))
    calc (a :: l).foldr insertDesc [e]
        = insertDesc a (l.foldr insertDesc [e]) := rfl
      _ = insertDesc a (e :: sortDesc l) := by rw [ih fun x hx => h x (by simp [hx])]
      _ = e :: insertDesc a (sortDesc l) := by rw [insertDesc, if_neg ha]
      _ = e :: sortDesc (a :: l) := rfl

open MongoDBStorage in
/-- Appending an event strictly newer than everything in the collection
sorts it to the front. -/
theorem sortDesc_append_newest (l : List Event) (e : Event)
    (h : ∀ x ∈ l, tsKey x < tsKey e) : sortDesc (l ++ [e]) = e :: sortDesc l := by
  have hsplit : sortDesc (l ++ [e]) = l.foldr insertDesc [e] := by
    rw [sortDesc, List.foldr_append]
    rfl
  rw [hsplit, foldr_insertDesc_newest e l h]

open MongoDBStorage in
/-- C7: store round-trip. With the store connected and the inserted
event's effective timestamp (its own, or the insertion time when it
carries none) strictly newer than every stored event's, `insert_event`
returns a non-null identifier and the updated state, and `get_events`
with `limit = 1`, `offset = 0` on that state returns exactly the inserted
event first — timestamp-descending order — with gesture, expression and
confidence matching the inserted event and the timestamp filled in. -/
theorem C7_round_trip (st : State) (evs : List Event) (event : Event) (now : Nat)
    (hc : st.events_collection = some evs)
    (hts : ∀ x ∈ evs, tsKey x < event.timestamp.getD now) :
    ∃ id st2 ev2,
      insert_event st event now false = (some id, st2)
    ∧ get_events st2 1 0 false = [ev2]
    ∧ ev2.gesture = event.gesture ∧ ev2.expression = event.expression
    ∧ ev2.confidence = event.confidence
    ∧ ev2.timestamp = some (event.timestamp.getD now) := by
  have hins : insert_event st event now false
      = (some (toString st.next_id),
         ⟨some (evs ++ [{ event with timestamp := some (event.timestamp.getD now) }]),
          st.next_id + 1⟩) := by
    simp [insert_event, hc]
  refine ⟨toString st.next_id,
    ⟨some (evs ++ [{ event with timestamp := some (event.timestamp.getD now) }]),
     st.next_id + 1⟩,
    { event with timestamp := some (event.timestamp.getD now) },
    hins, ?_, rfl, rfl, rfl, rfl⟩
  · have hkey : ∀ x ∈ evs,
        tsKey x < tsKey { event with timestamp := some (event.timestamp.getD now) } := by
      intro x hx
      simpa [tsKey] using hts x hx
    rw [get_events]
    simp only [if_false, Bool.false_eq_true]
    rw [sortDesc_append_newest evs _ hkey]
    rfl

open MongoDBStorage in
/-- C7, witness: the round trip on a freshly connected empty store. -/
theorem C7_round_trip_witness :
    ∃ id st2 ev2,
      insert_event ⟨some [], 0⟩ ⟨"Hello", "Happy", 0.9, none⟩ 7 false = (some id, st2)
    ∧ get_events st2 1 0 false = [ev2]
    ∧ ev2.gesture = "Hello" ∧ ev2.expression = "Happy"
    ∧ ev2.confidence = 0.9 ∧ ev2.timestamp = some 7 :=
  C7_round_trip ⟨some [], 0⟩ [] ⟨"Hello", "Happy", 0.9, none⟩ 7 rfl (by simp)

open MongoDBStorage in
/-- C8: for every caller-supplied `limit` and `offset`, `get_events`
clamps `limit` to `max(1, min(limit, 1000))` and `offset` to at least 0
before querying, and this clamp agrees with `min(max(limit,1),1000)`, so
the number of returned events never exceeds `min(max(limit,1),1000)`; the
clamp always lands in `[1,1000]`, and in particular `limit = 0` clamps to
1 and `limit = 5000` clamps to 1000. -/
theorem C8_limit_clamp (st : State) (limit offset : Int) (bf : Bool) :
    ((get_events st limit offset bf).length : Int) ≤ min (max limit 1) 1000
  ∧ max 1 (min limit 1000) = min (max limit 1) 1000
  ∧ 1 ≤ max 1 (min limit 1000) ∧ max 1 (min limit 1000) ≤ 1000
  ∧ max 1 (min (0 : Int) 1000) = 1 ∧ max 1 (min (5000 : Int) 1000) = 1000 := by
  refine ⟨?_, by omega, by omega, by omega, by norm_num, by norm_num⟩
  rw [get_events]
  cases hc : st.events_collection with
  | none => simp only [List.length_nil, Nat.cast_zero]; omega
  | some evs =>
    cases bf with
    | true => simp only [if_true, List.length_nil, Nat.cast_zero]; omega
    | false =>
      simp only [if_false, Bool.false_eq_true]
      have hlen : ((((sortDesc evs).drop (max 0 offset).toNat).take
          (max 1 (min limit 1000)).toNat).length : Int)
          ≤ ((max 1 (min limit 1000)).toNat : Int) := by
        exact_mod_cast Nat.cast_le.mpr (List.length_take_le _ _)
      have htn : ((max 1 (min limit 1000)).toNat : Int) = max 1 (min limit 1000) := by
        omega
      omega

/-- C9: calling `close()` twice on a recognition session of either
modality does not raise: whatever the underlying MediaPipe `close` does —
including raising on an already-closed session, which the wrapper only
logs — both the first and the second wrapped call return normally. -/
theorem C9_close_idempotent (underlying : Session → Except String Session) (s : Session) :
    (∃ s1, GestureRecognizer.close underlying s = .ok s1
       ∧ ∃ s2, GestureRecognizer.close underlying s1 = .ok s2)
  ∧ (∃ s1, FacialExpressionRecognizer.close underlying s = .ok s1
       ∧ ∃ s2, FacialExpressionRecognizer.close underlying s1 = .ok s2) := by
  constructor
  · rcases h1 : underlying s with e1 | t1
    · refine ⟨s, by rw [GestureRecognizer.close, h1], ?_⟩
      rcases h2 : underlying s with e2 | t2
      · exact ⟨s, by rw [GestureRecognizer.close, h2]⟩
      · exact ⟨t2, by rw [GestureRecognizer.close, h2]⟩
    · refine ⟨t1, by rw [GestureRecognizer.close, h1], ?_⟩
      rcases h2 : underlying t1 with e2 | t2
      · exact ⟨t1, by rw [GestureRecognizer.close, h2]⟩
      · exact ⟨t2, by rw [GestureRecognizer.close, h2]⟩
  · rcases h1 : underlying s with e1 | t1
    · refine ⟨s, by rw [FacialExpressionRecognizer.close, h1], ?_⟩
      rcases h2 : underlying s with e2 | t2
      · exact ⟨s, by rw [FacialExpressionRecognizer.close, h2]⟩
      · exact ⟨t2, by rw [FacialExpressionRecognizer.close, h2]⟩
    · refine ⟨t1, by rw [FacialExpressionRecognizer.close, h1], ?_⟩
      rcases h2 : underlying t1 with e2 | t2
      · exact ⟨t1, by rw [FacialExpressionRecognizer.close, h2]⟩
      · exact ⟨t2, by rw [FacialExpressionRecognizer.close, h2]⟩

open FacialExpressionRecognizer in
/-- C10: when a face is detected but indexing into its landmark list
fails with an index error (here: the list is shorter than every consulted
index, the smallest being `MOUTH_TOP = 13`), both ratio extractors catch
the error and return `0.0`; the recognizer then classifies the frame via
the `m < 0.01` and `e < 0.008` branch as `("Sad", 0.80)` rather than
returning the `("Unknown", 0.0)` sentinel. -/
theorem C10_index_error_sad (sq : ℚ → ℚ) (face : List Landmark)
    (rest : List (List Landmark)) (h : face.length ≤ 13) :
    extract_mouth_distance sq face = 0.0
  ∧ extract_eye_distance sq face = 0.0
  ∧ recognize sq true (.ok (face :: rest)) = ("Sad", 0.80)
  ∧ recognize sq true (.ok (face :: rest)) ≠ ("Unknown", 0.0) := by
  have h61 : face.get? MOUTH_LEFT = none := by
    rw [List.get?_eq_none]
    calc face.length ≤ 13 := h
      _ ≤ MOUTH_LEFT := by rw [MOUTH_LEFT]; omega
  have h33 : face.get? LEFT_EYE_LEFT = none := by
    rw [List.get?_eq_none]
    calc face.length ≤ 13 := h
      _ ≤ LEFT_EYE_LEFT := by rw [LEFT_EYE_LEFT]; omega
  have hm : extract_mouth_distance sq face = 0.0 := by
    rw [extract_mouth_distance, h61]
  have he : extract_eye_distance sq face = 0.0 := by
    rw [extract_eye_distance, h33]
  have hrec : recognize sq true (.ok (face :: rest))
      = classifyRatios (extract_mouth_distance sq face) (extract_eye_distance sq face) := rfl
  have hsad : recognize sq true (.ok (face :: rest)) = ("Sad", 0.80) := by
    rw [hrec, hm, he, classifyRatios]
    norm_num
  refine ⟨hm, he, hsad, ?_⟩
  rw [hsad]
  intro hcontra
  have : "Sad" = "Unknown" := congrArg Prod.fst hcontra
  simp at this

open FacialExpressionRecognizer in
/-- C10, witness: an empty landmark list (every index lookup fails). -/
theorem C10_index_error_sad_witness :
    extract_mouth_distance (fun q => q) [] = 0.0
  ∧ extract_eye_distance (fun q => q) [] = 0.0
  ∧ recognize (fun q => q) true (.ok [[]]) = ("Sad", 0.80)
  ∧ recognize (fun q => q) true (.ok [[]]) ≠ ("Unknown", 0.0) :=
  C10_index_error_sad (fun q => q) [] [] (by simp)

end ARGestureAI
